import Mathlib

/-!
Shallow embedding of the Slack ingestion engine of the samuelizer repository
(src/slack/pagination.py, download_slack_channel.py, channel_lister.py,
filters.py, src/exporters/json_exporter.py), together with theorems settling
the specification claims about pagination, rate-limit handling, auto-join
recovery, mention caching, thread-expansion failure handling, filtering and
export.

Network calls are modelled by scripts: a list of scripted responses consumed
one per call, with the requests issued recorded in a trace and `time.sleep`
calls recorded as a list of durations (in seconds, as rationals).  A loop
that would issue a call after the script is exhausted yields the outcome
`hung`, which models a run whose remaining behaviour the script does not
determine.
-/

namespace Samuelizer

/-- Python dict lookup `d.get(k)` on an association list (first binding wins,
as `dictInsert` keeps keys unique in insertion order). -/
def lookupAssoc : List (String × String) → String → Option String
  | [], _ => none
  | (k, v) :: rest, u => if k = u then some v else lookupAssoc rest u

/-- Python dict assignment `d[k] = v`: replace the value in place if the key
exists, otherwise append the binding (insertion order preserved). -/
def dictInsert (d : List (String × String)) (k v : String) : List (String × String) :=
  match d with
  | [] => [(k, v)]
  | (k', v') :: rest => if k' = k then (k, v) :: rest else (k', v') :: dictInsert rest k v

/-- Slack message dict, restricted to the keys the engine reads:
`ts`, `user`, `text`, `thread_ts`, `reply_count`, `reactions` (presence only)
and the engine-written `thread_replies`.  Absent keys are `none`
(for `reply_count`, code always reads it via `get("reply_count", 0)`). -/
inductive Msg : Type where
  | mk (ts : String) (user : Option String) (text : Option String)
       (thread_ts : Option String) (reply_count : Option Nat)
       (has_reactions : Bool) (thread_replies : Option (List Msg)) : Msg

def Msg.ts : Msg → String
  | .mk t _ _ _ _ _ _ => t

def Msg.user : Msg → Option String
  | .mk _ u _ _ _ _ _ => u

def Msg.text : Msg → Option String
  | .mk _ _ x _ _ _ _ => x

def Msg.thread_ts : Msg → Option String
  | .mk _ _ _ tt _ _ _ => tt

def Msg.reply_count : Msg → Option Nat
  | .mk _ _ _ _ rc _ _ => rc

def Msg.has_reactions : Msg → Bool
  | .mk _ _ _ _ _ hr _ => hr

def Msg.thread_replies : Msg → Option (List Msg)
  | .mk _ _ _ _ _ _ tr => tr

/-- Functional update of the `text` key (`message["text"] = ...`). -/
def Msg.withText : Msg → Option String → Msg
  | .mk t u _ tt rc hr tr, x => .mk t u x tt rc hr tr

/-- Functional update of the `thread_replies` key. -/
def Msg.withReplies : Msg → Option (List Msg) → Msg
  | .mk t u x tt rc hr _, tr => .mk t u x tt rc hr tr

/-! ### MessageFilter (src/slack/filters.py) -/

/-- Date-range predicate of `SlackMessageFilter.by_date_range`: a message is
kept unless `message_date < start_date` or `message_date > end_date`.
`d` is the message's timestamp converted to a time point (the code's
`datetime.fromtimestamp(float(message.get('ts', 0)))`, modelled on ℚ). -/
def inDateRange (d : ℚ) (s e : Option ℚ) : Bool :=
  (match s with | none => true | some sv => !(decide (d < sv))) &&
  (match e with | none => true | some ev => !(decide (ev < d)))

/-- Embedding of `SlackMessageFilter.by_date_range`.  `tsval` models
`float(message.get('ts', 0))` composed with `datetime.fromtimestamp`
(an arbitrary conversion of the ts string to a time point); `start_date` and
`end_date` are the bound datetimes on the same scale.  When both bounds are
absent the input list is returned unchanged, as in the source. -/
def by_date_range (tsval : String → ℚ) (messages : List Msg)
    (start_date end_date : Option ℚ) : List Msg :=
  if start_date.isNone && end_date.isNone then messages
  else messages.filter fun m => inDateRange (tsval m.ts) start_date end_date

/-- Embedding of `SlackMessageFilter.by_user`: keep messages whose `user`
value equals `user_id` (an absent `user` key never equals a string id). -/
def by_user (messages : List Msg) (user_id : String) : List Msg :=
  messages.filter fun m => m.user = some user_id

/-- Embedding of `SlackMessageFilter.by_has_replies`. -/
def by_has_replies (messages : List Msg) : List Msg :=
  messages.filter fun m => 0 < m.reply_count.getD 0

/-- Embedding of `SlackMessageFilter.by_has_reactions` (`'reactions' in msg`). -/
def by_has_reactions (messages : List Msg) : List Msg :=
  messages.filter fun m => m.has_reactions

/-! ### JSONExporter (src/exporters/json_exporter.py) -/

/-- Artifact written by `JSONExporter.export_messages` (the dict passed to
`json.dump`). -/
structure ExportData where
  channel_id : String
  download_date : String
  start_date : Option String
  end_date : Option String
  message_count : Nat
  messages : List Msg

/-- Embedding of `JSONExporter.export_messages`.  Datetimes are an opaque
type `α`; `fmtYmd` models `strftime('%Y%m%d')`, `iso` models `isoformat()`,
and `nowStamp` models `datetime.now().strftime("%Y%m%d_%H%M%S")`.  Returns
the artifact path and the artifact contents. -/
def export_messages {α : Type} (fmtYmd iso : α → String) (nowStamp : String)
    (messages : List Msg) (channel_id output_dir : String)
    (start_date end_date : Option α) : String × ExportData :=
  let timestamp := nowStamp
  let date_range :=
    (match start_date with | some d => "_from_" ++ fmtYmd d | none => "") ++
    (match end_date with | some d => "_to_" ++ fmtYmd d | none => "")
  let filename :=
    output_dir ++ "/slack_messages_" ++ channel_id ++ date_range ++ "_" ++ timestamp ++ ".json"
  (filename,
   { channel_id := channel_id
     download_date := timestamp
     start_date := start_date.map iso
     end_date := end_date.map iso
     message_count := messages.length
     messages := messages })

/-! ### Theorems for the filter claims -/

/-- C8: for every message sequence, the author filter and the date-range
filter commute (filtering by user then by date range equals filtering by
date range then by user) and each filter is idempotent.  The embedded
filters are pure Lean functions, so they return a new sequence and leave
their input unchanged by construction. -/
theorem filters_commute_and_idempotent (tsval : String → ℚ) (ms : List Msg)
    (u : String) (s e : Option ℚ) :
    by_user (by_date_range tsval ms s e) u = by_date_range tsval (by_user ms u) s e
    ∧ by_user (by_user ms u) u = by_user ms u
    ∧ by_date_range tsval (by_date_range tsval ms s e) s e = by_date_range tsval ms s e := by
  refine ⟨?_, ?_, ?_⟩
  · unfold by_date_range by_user
    cases hc : (s.isNone && e.isNone) with
    | true => simp [hc]
    | false =>
      simp only [hc, Bool.false_eq_true, if_false]
      rw [List.filter_filter, List.filter_filter]
      apply List.filter_congr
      intro m _
      exact Bool.and_comm _ _
  · unfold by_user
    rw [List.filter_filter]
    apply List.filter_congr
    intro m _
    exact Bool.and_self _
  · unfold by_date_range
    cases hc : (s.isNone && e.isNone) with
    | true => simp [hc]
    | false =>
      simp only [hc, Bool.false_eq_true, if_false]
      rw [List.filter_filter]
      apply List.filter_congr
      intro m _
      exact Bool.and_self _

/-- C9: `export_messages` produces an artifact holding the channel id, the
generation timestamp, the optional date bounds (null when absent), a
`message_count` equal to the number of messages, and the messages
themselves, and returns the artifact's deterministic path; in particular a
three-message export without bounds has `message_count` 3 and null
`start_date`/`end_date`. -/
theorem export_messages_contents {α : Type} (fmtYmd iso : α → String)
    (nowStamp : String) (ms : List Msg) (cid outDir : String)
    (sd ed : Option α) (m1 m2 m3 : Msg) :
    (export_messages fmtYmd iso nowStamp ms cid outDir sd ed).2 =
      { channel_id := cid
        download_date := nowStamp
        start_date := sd.map iso
        end_date := ed.map iso
        message_count := ms.length
        messages := ms }
    ∧ (export_messages fmtYmd iso nowStamp ms cid outDir sd ed).1 =
        outDir ++ "/slack_messages_" ++ cid ++
          ((match sd with | some d => "_from_" ++ fmtYmd d | none => "") ++
           (match ed with | some d => "_to_" ++ fmtYmd d | none => "")) ++
          "_" ++ nowStamp ++ ".json"
    ∧ (export_messages fmtYmd iso nowStamp [m1, m2, m3] cid outDir none none).2.message_count = 3
    ∧ (export_messages fmtYmd iso nowStamp [m1, m2, m3] cid outDir none none).2.start_date = none
    ∧ (export_messages fmtYmd iso nowStamp [m1, m2, m3] cid outDir none none).2.end_date = none :=
  ⟨rfl, rfl, rfl, rfl, rfl⟩

/-! ### SlackPaginator (src/slack/pagination.py) -/

/-- Response dict as read by `SlackPaginator.fetch_all`: an optional
`messages` key and an optional `response_metadata` dict holding an optional
`next_cursor` key.  `ok` and `error` mirror the synthetic failure response
built by `_make_api_call`; `fetch_all` never reads them. -/
structure PPage (α : Type) where
  ok : Bool
  error : Option String
  messages : Option (List α)
  response_metadata : Option (Option String)

/-- Synthetic response `_make_api_call` returns after exhausting its
retries; it carries neither `messages` nor `response_metadata`. -/
def maxRetriesPage {α : Type} : PPage α :=
  ⟨false, some "Max retries exceeded", none, none⟩

/-- Embedding of `SlackPaginator._make_api_call`.  The script yields each
`client_method` call's result in order (`Except.error` means the call
raised).  The first component of the result is the response handed back to
`fetch_all`, the second the number of calls issued, the third the
unconsumed script; `none` models a script exhausted mid-retry.  Every
exception is caught and the attempt repeated; after all attempts fail the
synthetic `maxRetriesPage` is returned without raising. -/
def make_api_call_go {α : Type} :
    Nat → List (Except String (PPage α)) →
    Option (PPage α × Nat × List (Except String (PPage α)))
  | 0, script => some (maxRetriesPage, 0, script)
  | _ + 1, [] => none
  | _ + 1, .ok p :: rest => some (p, 1, rest)
  | n + 1, .error _ :: rest =>
    match make_api_call_go n rest with
    | some (p, c, r) => some (p, c + 1, r)
    | none => none

/-- Cursor extraction of `fetch_all`: read `response_metadata` defaulting to
an empty dict, then `next_cursor` defaulting to the empty string. -/
def PPage.effCursor {α : Type} (p : PPage α) : String :=
  match p.response_metadata with
  | some (some c) => c
  | _ => ""

/-- Embedding of the `while True` loop of `SlackPaginator.fetch_all`,
accumulating the `messages` of every response and counting `client_method`
calls.  `none` models a run the script leaves undetermined. -/
def fetch_all_go {α : Type} (max_retries : Nat) :
    Nat → List (Except String (PPage α)) → List (String × String) →
    List α → Nat → Option (List α × Nat)
  | 0, _, _, _, _ => none
  | fuel + 1, script, args, acc, calls =>
    match make_api_call_go max_retries script with
    | none => none
    | some (resp, c, rest) =>
      let acc' := acc ++ (match resp.messages with | some l => l | none => [])
      let cur := resp.effCursor
      if cur = "" then some (acc', calls + c)
      else fetch_all_go max_retries fuel rest (dictInsert args "cursor" cur) acc' (calls + c)

/-- Embedding of `SlackPaginator.fetch_all` (with the paginator's
`max_retries` setting, default 3 in the source).  Returns the accumulated
results and the number of `client_method` calls issued. -/
def fetch_all {α : Type} (max_retries : Nat)
    (script : List (Except String (PPage α)))
    (method_args : List (String × String)) : Option (List α × Nat) :=
  fetch_all_go max_retries (script.length + 1) script method_args [] 0

/-- Page-sequence shape of claim C1: the sequence is nonempty, every page
but the last carries a nonempty `next_cursor` in its `response_metadata`,
and the last page's metadata carries no `next_cursor` key. -/
def goodPages {α : Type} : List (List α × Option (Option String)) → Bool
  | [] => false
  | (_, meta) :: rest =>
    match rest with
    | [] => meta.isNone
    | _ :: _ =>
      (match meta with | some (some c) => c != "" | _ => false) && goodPages rest

/-- Script in which each `client_method` call returns the next page. -/
def pagScript {α : Type} : List (List α × Option (Option String)) →
    List (Except String (PPage α))
  | [] => []
  | pr :: rest => Except.ok ⟨true, none, some pr.1, pr.2⟩ :: pagScript rest

theorem fetch_all_go_spec {α : Type}
    (pages : List (List α × Option (Option String)))
    (h : goodPages pages = true) :
    ∀ fuel args acc calls, pages.length ≤ fuel →
    fetch_all_go 3 fuel (pagScript pages) args acc calls =
      some (acc ++ (pages.map Prod.fst).flatten, calls + pages.length) := by
  induction pages with
  | nil => simp [goodPages] at h
  | cons pr rest ih =>
    obtain ⟨ms, meta⟩ := pr
    intro fuel args acc calls hfuel
    cases fuel with
    | zero => simp at hfuel
    | succ fuel =>
      cases rest with
      | nil =>
        have hm : meta = none := by
          cases meta with
          | none => rfl
          | some o => simp [goodPages, Option.isNone] at h
        subst hm
        simp [fetch_all_go, pagScript, make_api_call_go, PPage.effCursor]
      | cons r rs =>
        simp only [goodPages, Bool.and_eq_true] at h
        obtain ⟨hc, hrest⟩ := h
        cases meta with
        | none => simp at hc
        | some o =>
          cases o with
          | none => simp at hc
          | some c =>
            have hcne : ¬ c = "" := by simpa using hc
            have hlen : (r :: rs).length ≤ fuel := by
              simp only [List.length_cons] at hfuel ⊢
              omega
            simp only [fetch_all_go, pagScript, make_api_call_go,
              PPage.effCursor, if_neg hcne]
            have hfold :
                (Except.ok ⟨true, none, some r.1, r.2⟩ :: pagScript rs :
                  List (Except String (PPage α))) = pagScript (r :: rs) := rfl
            rw [hfold, ih hrest fuel (dictInsert args "cursor" c) (acc ++ ms) (calls + 1) hlen]
            simp [List.append_assoc]
            omega

/-- C4 counterexample: a client method that raises on every attempt.  The
Paginator issues three calls in total — it retries the failing operation
twice instead of propagating it — and then returns normally with the
accumulated (empty) result instead of raising. -/
theorem paginator_swallows_errors_cex :
    fetch_all 3 [Except.error "boom", Except.error "boom", Except.error "boom"]
      ([] : List (String × String)) = some (([] : List Nat), 3) := rfl

/-- C4 amended: when the page-fetch operation raises, `_make_api_call`
catches the exception and retries it, issuing up to `max_retries` calls in
total; if every attempt raises, `fetch_all` receives the synthetic
`Max retries exceeded` response, stops, and returns the results accumulated
so far.  No error propagates to the caller. -/
theorem paginator_retries_and_never_raises {α : Type} (e1 e2 e3 : String)
    (p : PPage α) (rest : List (Except String (PPage α)))
    (args : List (String × String)) :
    fetch_all 3 [Except.error e1, Except.error e2, Except.error e3] args
      = some (([] : List α), 3)
    ∧ make_api_call_go 3 (Except.error e1 :: Except.ok p :: rest)
      = some (p, 2, rest) :=
  ⟨rfl, rfl⟩

/-! ### SlackDownloader (src/slack/download_slack_channel.py)

The HTTP client is a script of responses consumed one per call; the
requests issued are recorded in a trace.  The call
`self.fetch_thread_messages(thread_ts)` inside `fetch_messages` is
abstracted as an oracle `String → Except String (List Msg)` (the function
either returns a reply list or raises); `fetch_thread_messages` itself is
embedded separately below against its own script.  Mention processing
(`MessageProcessor.replace_user_mentions`) is abstracted in the fetch loops
as a text transformation `String → String`; it is embedded exactly in the
`get_user_info` section further down.  `time.sleep` calls have no
observable effect on the data and are not tracked here. -/

/-- Fetch configuration: the fields of the `SlackConfig` dataclass that
`fetch_messages`/`fetch_thread_messages` read.  `oldest`/`latest` hold
`convert_date_to_ts(start_date)`/`convert_date_to_ts(end_date)` when the
date bounds are set.  `user_token` stands for `is_user_token(token)`, whose
definition is absent from this snapshot (`src/slack/utils.py` does not
define it); no claim depends on its value. -/
structure FetchConfig where
  channel_id : String
  oldest : Option String
  latest : Option String
  batch_size : Nat
  auto_join : Bool
  user_token : Bool

/-- Scripted result of one HTTP call: either the call raised
(`requests.exceptions.RequestException`), or it returned a JSON body with
an `ok` flag, an optional `error`, optional `messages` and an optional
`response_metadata` dict holding an optional `next_cursor` key.  A join
POST reads only `ok` and `error` from its entry. -/
inductive SEntry where
  | raise (msg : String)
  | resp (ok : Bool) (error : Option String) (messages : Option (List Msg))
         (meta : Option (Option String))

/-- Request issued over the HTTP client. -/
inductive Req where
  | get (url : String) (params : List (String × String))
  | post (url : String) (data : List (String × String))

/-- Error taxonomy of the downloader: `SlackAPIError`, `RequestError`, or
an uncaught Python exception. -/
inductive ApiErr where
  | slackAPI (msg : String)
  | requestErr (msg : String)
  | pyErr (msg : String)

/-- Result of a modelled run: a value, a raised error, or `hung` when the
script does not determine the remaining behaviour. -/
inductive Outcome (α : Type) where
  | ok (v : α)
  | err (e : ApiErr)
  | hung

def baseUrl : String := "https://slack.com/api"

def historyUrl : String := baseUrl ++ "/conversations.history"

def repliesUrl : String := baseUrl ++ "/conversations.replies"

def joinUrl : String := baseUrl ++ "/conversations.join"

/-- Initial params of `fetch_messages`: channel, limit, optional
`oldest`/`latest`, and `include_all_metadata` for user tokens. -/
def history_params (cfg : FetchConfig) : List (String × String) :=
  [("channel", cfg.channel_id), ("limit", toString cfg.batch_size)]
    ++ (match cfg.oldest with | some o => [("oldest", o)] | none => [])
    ++ (match cfg.latest with | some l => [("latest", l)] | none => [])
    ++ (if cfg.user_token then [("include_all_metadata", "True")] else [])

/-- Initial params of `fetch_thread_messages`. -/
def replies_params (cfg : FetchConfig) (thread_ts : String) : List (String × String) :=
  [("channel", cfg.channel_id), ("ts", thread_ts), ("limit", toString cfg.batch_size)]
    ++ (if cfg.user_token then [("include_all_metadata", "True")] else [])

/-- Embedding of `MessageProcessor.process_message`: when the message has a
`text` key, replace it by the processed text. -/
def process_message (procText : String → String) (m : Msg) : Msg :=
  match m.text with
  | some t => m.withText (some (procText t))
  | none => m

/-- Thread-expansion step of the `for msg in processed_messages` loop of
`fetch_messages`: a message has a thread when `thread_ts` is present or
`reply_count` is positive; when it has one and `thread_replies` is falsy
(absent or empty), fetch the thread rooted at `thread_ts or ts`; a raised
expansion is caught and recorded as an empty reply list. -/
def thread_step (threadFetch : String → Except String (List Msg)) (m : Msg) : Msg :=
  let has_thread := m.thread_ts.isSome || 0 < m.reply_count.getD 0
  let replies_falsy :=
    match m.thread_replies with
    | none => true
    | some [] => true
    | some (_ :: _) => false
  if has_thread && replies_falsy then
    let tts :=
      match m.thread_ts with
      | some s => if s = "" then m.ts else s
      | none => m.ts
    match threadFetch tts with
    | .ok rs => m.withReplies (some rs)
    | .error _ => m.withReplies (some [])
  else m

/-- Result of resolving one page of the `while True` loop, after the
error/auto-join handling. -/
inductive Resolved where
  | rerr (e : ApiErr)
  | rhung
  | rpage (messages : Option (List Msg)) (meta : Option (Option String)) (rest : List SEntry)

/-- One GET of the fetch loop together with its error handling: on a raise,
a `RequestError`; on a `not_in_channel` error with auto-join set, one
`conversations.join` POST followed by exactly one retry of the identical
GET, any further failure (a failed join, a raise during join or retry, or a
non-ok retry) raising a `SlackAPIError`; on `not_in_channel` without
auto-join or any other error, a `SlackAPIError` directly. -/
def resolve_page (cfg : FetchConfig) (url : String) (script : List SEntry)
    (params : List (String × String)) (trace : List Req) : Resolved × List Req :=
  let trace := trace ++ [Req.get url params]
  match script with
  | [] => (.rhung, trace)
  | .raise m :: _ =>
    (.rerr (.requestErr ("Failed to connect to Slack API: " ++ m)), trace)
  | .resp ok err msgs meta :: rest =>
    if ok then (.rpage msgs meta rest, trace)
    else
      let error_msg := err.getD "Unknown error"
      if error_msg = "not_in_channel" then
        if cfg.auto_join then
          let trace := trace ++ [Req.post joinUrl [("channel", cfg.channel_id)]]
          match rest with
          | [] => (.rhung, trace)
          | .raise _ :: _ =>
            (.rerr (.slackAPI ("Error en la API de Slack: " ++ error_msg)), trace)
          | .resp jok _ _ _ :: rest2 =>
            if jok then
              let trace := trace ++ [Req.get url params]
              match rest2 with
              | [] => (.rhung, trace)
              | .raise _ :: _ =>
                (.rerr (.slackAPI ("Error en la API de Slack: " ++ error_msg)), trace)
              | .resp rok retryErr rmsgs rmeta :: rest3 =>
                if rok then (.rpage rmsgs rmeta rest3, trace)
                else
                  (.rerr (.slackAPI
                    ("Error en la API de Slack: " ++ retryErr.getD "Unknown error")), trace)
            else
              (.rerr (.slackAPI ("Error en la API de Slack: " ++ error_msg)), trace)
        else
          (.rerr (.slackAPI ("Error en la API de Slack: " ++ error_msg)), trace)
      else
        (.rerr (.slackAPI ("Error en la API de Slack: " ++ error_msg)), trace)

/-- The shared `while True` pagination loop of `fetch_messages` and
`fetch_thread_messages` (the two bodies are copies of each other up to the
endpoint, the initial params and the per-message processing `perMsg`).
The loop ends only when the `next_cursor` KEY is absent from
`response_metadata`; a present key — even mapped to the empty string — re-
enters the loop with the `cursor` param set to its value. -/
def paged_fetch_go (cfg : FetchConfig) (url : String) (perMsg : Msg → Msg) :
    Nat → List SEntry → List (String × String) → List Msg → List Req →
    Outcome (List Msg) × List Req
  | 0, _, _, _, trace => (.hung, trace)
  | fuel + 1, script, params, acc, trace =>
    match resolve_page cfg url script params trace with
    | (.rerr e, tr) => (.err e, tr)
    | (.rhung, tr) => (.hung, tr)
    | (.rpage msgs meta rest, tr) =>
      match msgs with
      | none => (.err (.pyErr "KeyError: messages"), tr)
      | some l =>
        let acc' := acc ++ l.map perMsg
        match meta with
        | some (some c) =>
          paged_fetch_go cfg url perMsg fuel rest (dictInsert params "cursor" c) acc' tr
        | _ => (.ok acc', tr)

/-- Embedding of `SlackDownloader.fetch_messages`.  Per page, every message
is processed by `process_message` and then by the thread-expansion step. -/
def fetch_messages (cfg : FetchConfig) (procText : String → String)
    (threadFetch : String → Except String (List Msg)) (script : List SEntry) :
    Outcome (List Msg) × List Req :=
  paged_fetch_go cfg historyUrl
    (fun m => thread_step threadFetch (process_message procText m))
    (script.length + 1) script (history_params cfg) [] []

/-- Embedding of `SlackDownloader.fetch_thread_messages`. -/
def fetch_thread_messages (cfg : FetchConfig) (procText : String → String)
    (thread_ts : String) (script : List SEntry) :
    Outcome (List Msg) × List Req :=
  paged_fetch_go cfg repliesUrl (process_message procText)
    (script.length + 1) script (replies_params cfg thread_ts) [] []

/-- Page response with the given messages and metadata. -/
def pageOk (ms : List Msg) (meta : Option (Option String)) : SEntry :=
  .resp true none (some ms) meta

/-- The `not_in_channel` error response. -/
def nicEntry : SEntry := .resp false (some "not_in_channel") none none

/-- A successful `conversations.join` response. -/
def joinOkEntry : SEntry := .resp true none none none

/-- A non-ok response with the given error string. -/
def errEntry (e : String) : SEntry := .resp false (some e) none none

/-- Script in which each history GET returns the next page. -/
def histScript : List (List Msg × Option (Option String)) → List SEntry
  | [] => []
  | pr :: rest => SEntry.resp true none (some pr.1) pr.2 :: histScript rest

theorem paged_fetch_go_spec (cfg : FetchConfig) (url : String) (perMsg : Msg → Msg)
    (pages : List (List Msg × Option (Option String)))
    (h : goodPages pages = true) :
    ∀ fuel params acc trace, pages.length ≤ fuel →
    ∃ extra,
      paged_fetch_go cfg url perMsg fuel (histScript pages) params acc trace =
        (.ok (acc ++ (pages.map fun pr => pr.1.map perMsg).flatten), trace ++ extra)
      ∧ extra.length = pages.length
      ∧ ∀ r ∈ extra, ∃ ps, r = Req.get url ps := by
  induction pages with
  | nil => simp [goodPages] at h
  | cons pr rest ih =>
    obtain ⟨ms, meta⟩ := pr
    intro fuel params acc trace hfuel
    cases fuel with
    | zero => simp at hfuel
    | succ fuel =>
      cases rest with
      | nil =>
        have hm : meta = none := by
          cases meta with
          | none => rfl
          | some o => simp [goodPages, Option.isNone] at h
        subst hm
        refine ⟨[Req.get url params], ?_, rfl, ?_⟩
        · simp [paged_fetch_go, histScript, resolve_page]
        · intro r hr
          simp at hr
          exact ⟨params, hr⟩
      | cons q qs =>
        simp only [goodPages, Bool.and_eq_true] at h
        obtain ⟨hc, hrest⟩ := h
        cases meta with
        | none => simp at hc
        | some o =>
          cases o with
          | none => simp at hc
          | some c =>
            have hlen : (q :: qs).length ≤ fuel := by
              simp only [List.length_cons] at hfuel ⊢
              omega
            obtain ⟨extra, heq, hel, hget⟩ :=
              ih hrest fuel (dictInsert params "cursor" c) (acc ++ ms.map perMsg)
                (trace ++ [Req.get url params]) hlen
            refine ⟨Req.get url params :: extra, ?_, ?_, ?_⟩
            · have hstep :
                  paged_fetch_go cfg url perMsg (fuel + 1)
                    (histScript ((ms, some (some c)) :: q :: qs)) params acc trace =
                  paged_fetch_go cfg url perMsg fuel (histScript (q :: qs))
                    (dictInsert params "cursor" c) (acc ++ ms.map perMsg)
                    (trace ++ [Req.get url params]) := rfl
              rw [hstep, heq]
              simp [List.append_assoc]
            · simp [hel]
            · intro r hr
              rcases List.mem_cons.mp hr with h1 | h2
              · exact ⟨params, h1⟩
              · exact hget r h2

/-- C1: for every nonempty sequence of N pages in which each page but the
last carries a (nonempty) cursor in `response_metadata.next_cursor` and the
last carries none, the pagination loops issue exactly N page-fetch calls —
every issued request being a page GET — and return the concatenation of
each page's `messages` items in call order (`fetch_messages` returns each
item via its per-message processing; `SlackPaginator.fetch_all` returns the
items untouched). -/
theorem pagination_calls_and_concatenation {α : Type} (cfg : FetchConfig)
    (procText : String → String) (threadFetch : String → Except String (List Msg))
    (pages : List (List Msg × Option (Option String)))
    (ppages : List (List α × Option (Option String)))
    (args : List (String × String))
    (h : goodPages pages = true) (hp : goodPages ppages = true) :
    (fetch_messages cfg procText threadFetch (histScript pages)).1 =
      .ok ((pages.map fun pr => pr.1.map fun m =>
        thread_step threadFetch (process_message procText m)).flatten)
    ∧ (fetch_messages cfg procText threadFetch (histScript pages)).2.length = pages.length
    ∧ (∀ r ∈ (fetch_messages cfg procText threadFetch (histScript pages)).2,
        ∃ ps, r = Req.get historyUrl ps)
    ∧ fetch_all 3 (pagScript ppages) args =
        some ((ppages.map Prod.fst).flatten, ppages.length) := by
  have hflen : ∀ (l : List (List Msg × Option (Option String))),
      (histScript l).length = l.length := by
    intro l
    induction l with
    | nil => rfl
    | cons x xs ihx => simp [histScript, ihx]
  have hfuel : pages.length ≤ (histScript pages).length + 1 := by
    rw [hflen]
    omega
  obtain ⟨extra, heq, hel, hget⟩ :=
    paged_fetch_go_spec cfg historyUrl
      (fun m => thread_step threadFetch (process_message procText m)) pages h
      ((histScript pages).length + 1) (history_params cfg) [] [] hfuel
  have hplen : ∀ (l : List (List α × Option (Option String))),
      (pagScript l).length = l.length := by
    intro l
    induction l with
    | nil => rfl
    | cons x xs ihx => simp [pagScript, ihx]
  refine ⟨?_, ?_, ?_, ?_⟩
  · unfold fetch_messages
    rw [heq]
    simp
  · unfold fetch_messages
    rw [heq]
    simpa using hel
  · unfold fetch_messages
    rw [heq]
    simpa using hget
  · unfold fetch_all
    have hfuel2 : ppages.length ≤ (pagScript ppages).length + 1 := by
      rw [hplen]
      omega
    rw [fetch_all_go_spec ppages hp ((pagScript ppages).length + 1) args [] 0 hfuel2]
    simp

/-- Witness for C1 at a concrete two-page sequence: page 1 holds one
message and cursor `c1`, page 2 holds one message and no cursor. -/
theorem pagination_calls_and_concatenation_witness :
    (fetch_messages ⟨"C1", none, none, 100, false, false⟩ id (fun _ => .ok [])
        (histScript [([Msg.mk "1.0" none none none none false none], some (some "c1")),
                     ([Msg.mk "2.0" none none none none false none], none)])).1 =
      .ok (([([Msg.mk "1.0" none none none none false none], some (some "c1")),
             ([Msg.mk "2.0" none none none none false none], none)].map
              fun pr => pr.1.map fun m =>
                thread_step (fun _ => .ok []) (process_message id m)).flatten)
    ∧ (fetch_messages ⟨"C1", none, none, 100, false, false⟩ id (fun _ => .ok [])
        (histScript [([Msg.mk "1.0" none none none none false none], some (some "c1")),
                     ([Msg.mk "2.0" none none none none false none], none)])).2.length = 2
    ∧ (∀ r ∈ (fetch_messages ⟨"C1", none, none, 100, false, false⟩ id (fun _ => .ok [])
        (histScript [([Msg.mk "1.0" none none none none false none], some (some "c1")),
                     ([Msg.mk "2.0" none none none none false none], none)])).2,
        ∃ ps, r = Req.get historyUrl ps)
    ∧ fetch_all 3 (pagScript [([(0 : Nat), 1], some (some "c1")), ([2], none)]) [] =
        some ([0, 1, 2], 2) :=
  pagination_calls_and_concatenation ⟨"C1", none, none, 100, false, false⟩ id
    (fun _ => .ok [])
    [([Msg.mk "1.0" none none none none false none], some (some "c1")),
     ([Msg.mk "2.0" none none none none false none], none)]
    [([(0 : Nat), 1], some (some "c1")), ([2], none)] [] (by rfl) (by rfl)

/-- C3: on a `not_in_channel` error response with auto-join set, exactly
one join call is issued followed by exactly one retry of the original
request with identical params; a failure of that retry — even a second
`not_in_channel` — or of the join itself (non-ok response or raise) raises
a generic `SlackAPIError` without a second join attempt; with auto-join
unset the fetch raises without issuing any join call.  The last conjunct
shows the same recovery in `fetch_thread_messages`. -/
theorem autojoin_one_join_one_retry (cfg : FetchConfig)
    (procText : String → String) (threadFetch : String → Except String (List Msg))
    (ms : List Msg) (e m tts : String) :
    (fetch_messages { cfg with auto_join := true } procText threadFetch
        [nicEntry, joinOkEntry, pageOk ms none] =
      (.ok (ms.map fun mm => thread_step threadFetch (process_message procText mm)),
       [Req.get historyUrl (history_params cfg),
        Req.post joinUrl [("channel", cfg.channel_id)],
        Req.get historyUrl (history_params cfg)]))
    ∧ (fetch_messages { cfg with auto_join := true } procText threadFetch
        [nicEntry, joinOkEntry, errEntry e] =
      (.err (.slackAPI ("Error en la API de Slack: " ++ e)),
       [Req.get historyUrl (history_params cfg),
        Req.post joinUrl [("channel", cfg.channel_id)],
        Req.get historyUrl (history_params cfg)]))
    ∧ (fetch_messages { cfg with auto_join := true } procText threadFetch
        [nicEntry, errEntry e] =
      (.err (.slackAPI "Error en la API de Slack: not_in_channel"),
       [Req.get historyUrl (history_params cfg),
        Req.post joinUrl [("channel", cfg.channel_id)]]))
    ∧ (fetch_messages { cfg with auto_join := true } procText threadFetch
        [nicEntry, SEntry.raise m] =
      (.err (.slackAPI "Error en la API de Slack: not_in_channel"),
       [Req.get historyUrl (history_params cfg),
        Req.post joinUrl [("channel", cfg.channel_id)]]))
    ∧ (fetch_messages { cfg with auto_join := false } procText threadFetch
        [nicEntry] =
      (.err (.slackAPI "Error en la API de Slack: not_in_channel"),
       [Req.get historyUrl (history_params cfg)]))
    ∧ (fetch_thread_messages { cfg with auto_join := true } procText tts
        [nicEntry, joinOkEntry, pageOk ms none] =
      (.ok (ms.map (process_message procText)),
       [Req.get repliesUrl (replies_params cfg tts),
        Req.post joinUrl [("channel", cfg.channel_id)],
        Req.get repliesUrl (replies_params cfg tts)])) :=
  ⟨rfl, rfl, rfl, rfl, rfl, rfl⟩

/-- C10: a page response whose `response_metadata` maps `next_cursor` to
the empty string makes `fetch_messages` issue a further request with the
`cursor` parameter set to the empty string — the loop ends only when the
key is absent — whereas `SlackPaginator.fetch_all` stops on the
empty-string cursor after a single call and returns that page's items. -/
theorem empty_cursor_divergence (cfg : FetchConfig) (procText : String → String)
    (threadFetch : String → Except String (List Msg)) (ms : List Msg)
    (pms : List Nat) (args : List (String × String)) :
    (fetch_messages cfg procText threadFetch [pageOk ms (some (some ""))]).1 = .hung
    ∧ (fetch_messages cfg procText threadFetch [pageOk ms (some (some ""))]).2 =
        [Req.get historyUrl (history_params cfg),
         Req.get historyUrl (dictInsert (history_params cfg) "cursor" "")]
    ∧ fetch_all 3 [Except.ok ⟨true, none, some pms, some (some "")⟩] args =
        some (pms, 1) :=
  ⟨rfl, rfl, rfl⟩

/-- C2 counterexample: `SlackDownloader.fetch_messages` turns a rate-limit
error response into a raised `SlackAPIError` — no wait, no retry: the run
ends after the single request with a hard failure. -/
theorem fetch_ratelimit_raises_cex :
    fetch_messages ⟨"C1", none, none, 100, false, false⟩ id (fun _ => .ok [])
      [errEntry "ratelimited"] =
      (.err (.slackAPI "Error en la API de Slack: ratelimited"),
       [Req.get historyUrl (history_params ⟨"C1", none, none, 100, false, false⟩)]) := rfl

/-- C6: thread-expansion failures never abort a fetch.  For every
expansion oracle, a single-page fetch returns `ok` with every message of
the page processed in order (first conjunct — in particular it returns
`ok` when every expansion raises); and in a page holding a message whose
expansion raises, one whose expansion succeeds, and one without a thread,
the failing message is returned with `thread_replies` set to the empty
list while the others keep their successful expansion or stay untouched
(second conjunct). -/
theorem thread_failure_degrades (cfg : FetchConfig) (procText : String → String)
    (oracle : String → Except String (List Msg)) (ms : List Msg)
    (ts1 ts2 ts3 : String) (u1 u2 u3 : Option String) (rc1 rc2 : Option Nat)
    (tt1 tt2 : String) (rs : List Msg) (emsg : String)
    (h1 : tt1 ≠ "") (h2 : tt2 ≠ "") (h12 : tt2 ≠ tt1) :
    ((fetch_messages cfg procText oracle [pageOk ms none]).1 =
      .ok (ms.map fun mm => thread_step oracle (process_message procText mm)))
    ∧ (fetch_messages cfg procText
        (fun s => if s = tt1 then .error emsg else if s = tt2 then .ok rs else .ok [])
        [pageOk [Msg.mk ts1 u1 none (some tt1) rc1 false none,
                 Msg.mk ts2 u2 none (some tt2) rc2 false none,
                 Msg.mk ts3 u3 none none none false none] none]).1 =
      .ok [Msg.mk ts1 u1 none (some tt1) rc1 false (some []),
           Msg.mk ts2 u2 none (some tt2) rc2 false (some rs),
           Msg.mk ts3 u3 none none none false none] := by
  constructor
  · rfl
  · simp [fetch_messages, paged_fetch_go, resolve_page, pageOk, thread_step,
      process_message, Msg.text, Msg.thread_ts, Msg.reply_count, Msg.thread_replies,
      Msg.ts, Msg.withReplies, h1, h2, h12]

/-- Witness for C6 at concrete thread timestamps `7.0` and `8.0`. -/
theorem thread_failure_degrades_witness :
    ((fetch_messages ⟨"C1", none, none, 100, false, false⟩ id
        (fun _ => Except.ok []) [pageOk [] none]).1 =
      .ok (([] : List Msg).map fun mm =>
        thread_step (fun _ => Except.ok []) (process_message id mm)))
    ∧ (fetch_messages ⟨"C1", none, none, 100, false, false⟩ id
        (fun s => if s = "7.0" then .error "boom"
                  else if s = "8.0" then .ok [] else .ok [])
        [pageOk [Msg.mk "1.0" none none (some "7.0") none false none,
                 Msg.mk "2.0" none none (some "8.0") none false none,
                 Msg.mk "3.0" none none none none false none] none]).1 =
      .ok [Msg.mk "1.0" none none (some "7.0") none false (some []),
           Msg.mk "2.0" none none (some "8.0") none false (some []),
           Msg.mk "3.0" none none none none false none] :=
  thread_failure_degrades ⟨"C1", none, none, 100, false, false⟩ id
    (fun _ => Except.ok []) [] "1.0" "2.0" "3.0" none none none none none
    "7.0" "8.0" [] "boom" (by decide) (by decide) (by decide)

/-! ### SlackChannelLister (src/slack/channel_lister.py) -/

/-- Scripted result of one `conversations.list` GET: a raise, or a JSON
body with `ok`, an optional `error`, the optional `Retry-After` header (a
number of seconds; absent means the code's default 60), optional
`channels`, and optional metadata with an optional `next_cursor`. -/
inductive LEntry (α : Type) where
  | raise (msg : String)
  | resp (ok : Bool) (error : Option String) (retryAfter : Option Nat)
         (channels : Option (List α)) (meta : Option (Option String))

/-- Embedding of the `while True` loop of
`SlackChannelLister._get_channels`: on a `ratelimited` error, sleep
`Retry-After` seconds (60 when the header is absent) and re-issue the
identical request; on any other non-ok response, or on a raise, raise a
`SlackAPIError`; on success accumulate `channels` and follow a truthy
`next_cursor` (sleeping 0.5 s between pages), otherwise stop.  Returns the
outcome, the unconsumed script, the params of every issued request in
order, and every sleep duration in seconds. -/
def get_channels_go {α : Type} :
    Nat → List (LEntry α) → List (String × String) → List α →
    List (List (String × String)) → List ℚ →
    Outcome (List α) × List (LEntry α) × List (List (String × String)) × List ℚ
  | 0, script, _, _, trace, sleeps => (.hung, script, trace, sleeps)
  | fuel + 1, script, params, acc, trace, sleeps =>
    let trace := trace ++ [params]
    match script with
    | [] => (.hung, [], trace, sleeps)
    | .raise m :: rest =>
      (.err (.slackAPI ("Error de conexión: " ++ m)), rest, trace, sleeps)
    | .resp ok err ra chans meta :: rest =>
      if ok then
        let acc := acc ++ chans.getD []
        match meta with
        | some (some c) =>
          if c = "" then (.ok acc, rest, trace, sleeps)
          else
            get_channels_go fuel rest (dictInsert params "cursor" c) acc trace
              (sleeps ++ [(1 : ℚ) / 2])
        | _ => (.ok acc, rest, trace, sleeps)
      else
        if err.getD "Unknown error" = "ratelimited" then
          get_channels_go fuel rest params acc trace
            (sleeps ++ [((ra.getD 60 : ℕ) : ℚ)])
        else
          (.err (.slackAPI ("Error en la API de Slack: " ++ err.getD "Unknown error")),
           rest, trace, sleeps)

/-- Embedding of `SlackChannelLister._get_channels`. -/
def get_channels {α : Type} (script : List (LEntry α))
    (params : List (String × String)) :
    Outcome (List α) × List (LEntry α) × List (List (String × String)) × List ℚ :=
  get_channels_go (script.length + 1) script params [] [] []

/-- Python bool rendered as a params value. -/
def pyBool (b : Bool) : String := if b then "True" else "False"

def publicParams (include_archived : Bool) : List (String × String) :=
  [("types", "public_channel"), ("exclude_archived", pyBool (!include_archived)),
   ("limit", "1000")]

def privateParams (include_archived : Bool) : List (String × String) :=
  [("types", "private_channel"), ("exclude_archived", pyBool (!include_archived)),
   ("limit", "1000")]

def imParams : List (String × String) := [("types", "im"), ("limit", "1000")]

def mpimParams : List (String × String) := [("types", "mpim"), ("limit", "1000")]

/-- Sequential composition of `list_channels`: fetch the next partition and
append its channels, unless an earlier partition already raised (a raised
`SlackAPIError` aborts the whole `list_channels` call). -/
def fetch_partition {α : Type}
    (st : Outcome (List α) × List (LEntry α) × List (List (String × String)) × List ℚ)
    (params : List (String × String)) :
    Outcome (List α) × List (LEntry α) × List (List (String × String)) × List ℚ :=
  match st with
  | (.ok acc, rest, tr, sl) =>
    match get_channels rest params with
    | (.ok chans, rest2, tr2, sl2) => (.ok (acc ++ chans), rest2, tr ++ tr2, sl ++ sl2)
    | (.err e, rest2, tr2, sl2) => (.err e, rest2, tr ++ tr2, sl ++ sl2)
    | (.hung, rest2, tr2, sl2) => (.hung, rest2, tr ++ tr2, sl ++ sl2)
  | other => other

/-- Embedding of `SlackChannelLister.list_channels`: public channels first,
then — when `include_private` — private channels, DMs and MPDMs, each via
`_get_channels` on its own fresh params, results concatenated. -/
def list_channels {α : Type} (script : List (LEntry α))
    (include_private include_archived : Bool) :
    Outcome (List α) × List (List (String × String)) × List ℚ :=
  let st0 := fetch_partition (.ok [], script, [], []) (publicParams include_archived)
  let st :=
    if include_private then
      fetch_partition
        (fetch_partition (fetch_partition st0 (privateParams include_archived)) imParams)
        mpimParams
    else st0
  (st.1, st.2.2.1, st.2.2.2)

/-- The `ratelimited` response with the given advisory wait. -/
def rlEntry {α : Type} (ra : Option Nat) : LEntry α :=
  .resp false (some "ratelimited") ra none none

/-- A final successful page carrying the given channels and no cursor. -/
def lastPage {α : Type} (chans : List α) : LEntry α :=
  .resp true none none (some chans) none

theorem get_channels_go_ratelimit {α : Type} (ra : Option Nat) (chans : List α) :
    ∀ (K : Nat) fuel params acc trace sleeps, K + 1 ≤ fuel →
    get_channels_go fuel (List.replicate K (rlEntry ra) ++ [lastPage chans])
        params acc trace sleeps =
      (.ok (acc ++ chans), [], trace ++ List.replicate (K + 1) params,
       sleeps ++ List.replicate K ((ra.getD 60 : ℕ) : ℚ)) := by
  intro K
  induction K with
  | zero =>
    intro fuel params acc trace sleeps hfuel
    cases fuel with
    | zero => omega
    | succ fuel =>
      simp [get_channels_go, lastPage, List.replicate]
  | succ K ih =>
    intro fuel params acc trace sleeps hfuel
    cases fuel with
    | zero => omega
    | succ fuel =>
      have hstep :
          get_channels_go (fuel + 1)
            (List.replicate (K + 1) (rlEntry ra) ++ [lastPage chans])
            params acc trace sleeps =
          get_channels_go fuel (List.replicate K (rlEntry ra) ++ [lastPage chans])
            params acc (trace ++ [params]) (sleeps ++ [((ra.getD 60 : ℕ) : ℚ)]) := by
        simp [List.replicate_succ, get_channels_go, rlEntry]
      rw [hstep, ih fuel params acc (trace ++ [params])
        (sleeps ++ [((ra.getD 60 : ℕ) : ℚ)]) (by omega)]
      rw [List.replicate_succ ((ra.getD 60 : ℕ) : ℚ) K]
      rw [show K + 1 + 1 = (K + 1) + 1 from rfl, List.replicate_succ params (K + 1)]
      simp [List.append_assoc, List.replicate_succ]

/-- C2 amended: in `SlackChannelLister._get_channels`, every rate-limited
response causes a sleep of exactly the advisory `Retry-After` seconds (60
when the header is absent) followed by a retry with identical params, for
any number K of consecutive rate-limit responses — the loop never raises
on rate limiting and eventually returns the successful page's channels.
`SlackDownloader.fetch_messages`, by contrast, raises a `SlackAPIError` on
a rate-limited error response without waiting or retrying. -/
theorem ratelimit_backoff_behavior {α : Type} (K : Nat) (ra : Option Nat)
    (chans : List α) (params : List (String × String)) (cfg : FetchConfig)
    (procText : String → String) (threadFetch : String → Except String (List Msg)) :
    get_channels (List.replicate K (rlEntry ra) ++ [lastPage chans]) params =
      (.ok chans, [], List.replicate (K + 1) params,
       List.replicate K ((ra.getD 60 : ℕ) : ℚ))
    ∧ fetch_messages cfg procText threadFetch [errEntry "ratelimited"] =
      (.err (.slackAPI "Error en la API de Slack: ratelimited"),
       [Req.get historyUrl (history_params cfg)]) := by
  constructor
  · unfold get_channels
    have hf : K + 1 ≤ (List.replicate K (rlEntry ra : LEntry α) ++ [lastPage chans]).length + 1 := by
      simp only [List.length_append, List.length_replicate, List.length_cons,
        List.length_nil]
      omega
    have hmain := get_channels_go_ratelimit ra chans K
      ((List.replicate K (rlEntry ra : LEntry α) ++ [lastPage chans]).length + 1)
      params [] [] [] hf
    simpa using hmain
  · rfl

/-- C7 counterexample: with private channels requested, a non-rate-limit
failure in the first (public) partition raises out of `list_channels`
immediately: only one request is ever issued, and the private, DM and MPDM
partitions are never enumerated, even though the script held a healthy
page that would have served them. -/
theorem partition_failure_aborts_cex :
    list_channels [LEntry.resp false (some "fatal") none none none,
                   lastPage [(0 : Nat)]] true false =
      (.err (.slackAPI "Error en la API de Slack: fatal"),
       [publicParams false], []) := rfl

/-- C7 amended: the four visibility partitions are fetched sequentially
(public, private, DM, MPDM), each independently paginated with fresh
params, and their results concatenated in that order; but a non-rate-limit
failure in a partition raises and aborts the remaining partitions instead
of leaving them unaffected. -/
theorem partitions_sequential_abort_on_failure {α : Type} (e : String)
    (he : e ≠ "ratelimited") (as bs cs ds : List α) (rest : List (LEntry α))
    (ia : Bool) :
    list_channels [lastPage as, lastPage bs, lastPage cs, lastPage ds] true ia =
      (.ok (((as ++ bs) ++ cs) ++ ds),
       [publicParams ia, privateParams ia, imParams, mpimParams], [])
    ∧ list_channels (LEntry.resp false (some e) none none none :: rest) true ia =
      (.err (.slackAPI ("Error en la API de Slack: " ++ e)),
       [publicParams ia], []) := by
  constructor
  · rfl
  · simp [list_channels, fetch_partition, get_channels, get_channels_go, he]

/-- Witness for C7 (amended) at the error string `fatal`. -/
theorem partitions_sequential_abort_on_failure_witness :
    list_channels [lastPage [(0 : Nat)], lastPage [1], lastPage [2], lastPage [3]]
        true false =
      (.ok ((([(0 : Nat)] ++ [1]) ++ [2]) ++ [3]),
       [publicParams false, privateParams false, imParams, mpimParams], [])
    ∧ list_channels (LEntry.resp false (some "fatal") none none none ::
        ([] : List (LEntry Nat))) true false =
      (.err (.slackAPI ("Error en la API de Slack: " ++ "fatal")),
       [publicParams false], []) :=
  partitions_sequential_abort_on_failure "fatal" (by decide) [0] [1] [2] [3] [] false

/-! ### get_user_info and mention resolution
(`SlackDownloader.get_user_info`, `MessageProcessor.replace_user_mentions`) -/

/-- Scripted result of one `users.info` lookup: the request raised (which
also covers a response missing the `user` key — the same `except` catches
the `KeyError`), the response was not ok, or it carried a user object with
optional `profile.display_name` and `real_name`. -/
inductive LookupR where
  | raise
  | notOk
  | okUser (display_name real_name : Option String)

def LookupR.isOk : LookupR → Bool
  | .okUser _ _ => true
  | _ => false

/-- Session state of one `SlackDownloader`: the `users_cache` dict and the
ids sent to `users.info`, in order. -/
structure UserSt where
  cache : List (String × String)
  calls : List String

/-- Python `a or b` on optional strings (`None` and the empty string are
falsy). -/
def pyOrS (a b : Option String) : Option String :=
  match a with
  | some s => if s = "" then b else some s
  | none => b

/-- Embedding of `SlackDownloader.get_user_info`.  The oracle yields the
result of the n-th `users.info` call of the session.  An empty id returns
`unknown_user` without a lookup; a cache hit returns immediately; a cache
miss calls the lookup; a failed lookup (raise or non-ok) falls back to the
raw id WITHOUT caching it; a successful lookup caches and returns
`display_name or real_name or user_id`. -/
def get_user_info (oracle : Nat → LookupR) (st : UserSt) (user_id : String) :
    String × UserSt :=
  if user_id = "" then ("unknown_user", st)
  else
    match lookupAssoc st.cache user_id with
    | some name => (name, st)
    | none =>
      let r := oracle st.calls.length
      let st' : UserSt := ⟨st.cache, st.calls ++ [user_id]⟩
      match r with
      | .raise => (user_id, st')
      | .notOk => (user_id, st')
      | .okUser d rn =>
        let name := (pyOrS (pyOrS d rn) (some user_id)).getD user_id
        (name, ⟨dictInsert st'.cache user_id name, st'.calls⟩)

/-- A character matched by `[A-Z0-9]` in the mention regex. -/
def isIdChar (c : Char) : Bool := ('A' ≤ c && c ≤ 'Z') || ('0' ≤ c && c ≤ '9')

/-- Longest `[A-Z0-9]*` run at the head of the character list, with the
remainder. -/
def splitIdRun : List Char → List Char × List Char
  | [] => ([], [])
  | c :: cs =>
    if isIdChar c then
      let p := splitIdRun cs
      (c :: p.1, p.2)
    else ([], c :: cs)

theorem splitIdRun_len (l : List Char) : (splitIdRun l).2.length ≤ l.length := by
  induction l with
  | nil => simp [splitIdRun]
  | cons c cs ih =>
    simp only [splitIdRun]
    by_cases h : isIdChar c = true
    · simp only [h, if_true]
      simp only [List.length_cons]
      omega
    · simp [h]

/-- Left-to-right scan of `re.sub(r'<@([A-Z0-9]+)>', replace_mention, text)`:
each non-overlapping match `<@ID>` is replaced by `"@" ++ get_user_info(ID)`
(threading the session state); a `<@` not followed by a nonempty id run and
`>` copies the `<` and resumes at the `@`, matching the regex engine's
advance-by-one search.  The fuel argument only bounds the recursion depth
(every step consumes at least one character, so `l.length + 1` is always
enough, as the wrapper supplies). -/
def replaceMentionsGo (oracle : Nat → LookupR) :
    Nat → List Char → UserSt → String × UserSt
  | 0, _, st => ("", st)
  | _ + 1, [], st => ("", st)
  | fuel + 1, '<' :: '@' :: rest, st =>
    match splitIdRun rest with
    | (rc :: rcs, '>' :: rest2) =>
      let p := get_user_info oracle st (String.mk (rc :: rcs))
      let q := replaceMentionsGo oracle fuel rest2 p.2
      ("@" ++ p.1 ++ q.1, q.2)
    | _ =>
      let q := replaceMentionsGo oracle fuel ('@' :: rest) st
      ("<" ++ q.1, q.2)
  | fuel + 1, c :: rest, st =>
    let q := replaceMentionsGo oracle fuel rest st
    (String.mk [c] ++ q.1, q.2)

/-- Embedding of `MessageProcessor.replace_user_mentions` (falsy — empty —
text is returned unchanged without scanning). -/
def replace_user_mentions (oracle : Nat → LookupR) (st : UserSt) (text : String) :
    String × UserSt :=
  if text = "" then (text, st)
  else replaceMentionsGo oracle (text.data.length + 1) text.data st

/-- Session processing a list of message texts in order, threading the
users cache (as `fetch_messages` does through `process_message` on every
downloaded message). -/
def run_mentions (oracle : Nat → LookupR) : List String → UserSt → UserSt
  | [], st => st
  | t :: ts, st => run_mentions oracle ts (replace_user_mentions oracle st t).2

/-- Invariant of the session state: the looked-up ids are pairwise
distinct and every looked-up id is cached. -/
def cacheInv (st : UserSt) : Prop :=
  st.calls.Nodup ∧ ∀ u ∈ st.calls, (lookupAssoc st.cache u).isSome = true

theorem lookupAssoc_dictInsert (c : List (String × String)) (k v u : String) :
    lookupAssoc (dictInsert c k v) u = if k = u then some v else lookupAssoc c u := by
  induction c with
  | nil => simp [dictInsert, lookupAssoc]
  | cons p rest ih =>
    obtain ⟨k', v'⟩ := p
    simp only [dictInsert]
    by_cases hk : k' = k
    · subst hk
      simp only [if_true, lookupAssoc]
      by_cases hu : k' = u
      · subst hu
        simp
      · simp [hu]
    · simp only [hk, if_false, lookupAssoc]
      by_cases hu : k' = u
      · subst hu
        have : ¬ k = k' := fun h => hk h.symm
        simp [this]
      · simp [hu, ih]

theorem get_user_info_inv (oracle : Nat → LookupR)
    (hok : ∀ n, (oracle n).isOk = true) (st : UserSt) (uid : String)
    (h : cacheInv st) : cacheInv (get_user_info oracle st uid).2 := by
  unfold get_user_info
  by_cases h0 : uid = ""
  · simp [h0, h]
  · simp only [h0, if_false]
    cases hc : lookupAssoc st.cache uid with
    | some name => simpa using h
    | none =>
      have hr := hok st.calls.length
      cases hr2 : oracle st.calls.length with
      | raise => rw [hr2] at hr; simp [LookupR.isOk] at hr
      | notOk => rw [hr2] at hr; simp [LookupR.isOk] at hr
      | okUser d rn =>
        simp only [hr2]
        have hnotin : uid ∉ st.calls := by
          intro hin
          have := h.2 uid hin
          rw [hc] at this
          simp at this
        constructor
        · simp only [List.nodup_append, List.nodup_cons, List.nodup_nil]
          exact ⟨h.1, by simp [hnotin], by simp [hnotin]⟩
        · intro u hu
          rw [List.mem_append] at hu
          rw [lookupAssoc_dictInsert]
          by_cases huid : uid = u
          · simp [huid]
          · simp only [huid, if_false]
            rcases hu with hu | hu
            · exact h.2 u hu
            · simp at hu
              exact absurd hu.symm huid

theorem replaceMentionsGo_inv (oracle : Nat → LookupR)
    (hok : ∀ n, (oracle n).isOk = true) :
    ∀ (fuel : Nat) (l : List Char) (st : UserSt), cacheInv st →
      cacheInv (replaceMentionsGo oracle fuel l st).2 := by
  intro fuel l st
  induction fuel, l, st using replaceMentionsGo.induct oracle with
  | case1 l st =>
    intro h
    simpa [replaceMentionsGo] using h
  | case2 fuel st =>
    intro h
    simpa [replaceMentionsGo] using h
  | case3 fuel rest st rc rcs rest2 hsplit p ih =>
    intro h
    rw [replaceMentionsGo]
    split
    · rename_i rc1 rcs1 rest21 heq
      rw [hsplit] at heq
      injection heq with heq1 heq2
      injection heq1 with heq1a heq1b
      injection heq2 with heq2a heq2b
      subst heq1a
      subst heq1b
      subst heq2b
      simpa using ih (get_user_info_inv oracle hok st (String.mk (rc :: rcs)) h)
    · rename_i hne2
      exact absurd hsplit (by intro hh; exact hne2 rc rcs rest2 hh)
  | case4 fuel rest st hne ih =>
    intro h
    rw [replaceMentionsGo]
    split
    · rename_i rc rcs rest2 heq
      exact absurd heq (by intro hh; exact hne rc rcs rest2 hh)
    · simpa using ih h
  | case5 fuel head rest st hne ih =>
    intro h
    rw [replaceMentionsGo]
    · simpa using ih h
    · exact hne

theorem run_mentions_inv (oracle : Nat → LookupR)
    (hok : ∀ n, (oracle n).isOk = true) :
    ∀ (texts : List String) (st : UserSt), cacheInv st →
      cacheInv (run_mentions oracle texts st) := by
  intro texts
  induction texts with
  | nil =>
    intro st h
    simpa [run_mentions] using h
  | cons t ts ih =>
    intro st h
    rw [run_mentions]
    apply ih
    unfold replace_user_mentions
    by_cases ht : t = ""
    · simpa [ht] using h
    · simp only [ht, if_false]
      exact replaceMentionsGo_inv oracle hok (t.data.length + 1) t.data st h

/-- C5 amended: provided every user lookup of the session succeeds, the
lookup is invoked at most once per user id across the whole session (the
ids sent to `users.info` over any sequence of processed texts are pairwise
distinct — every later occurrence of an id is served from the cache).  A
failed lookup deliberately leaves the id uncached, so a later occurrence
may retry it: see the counterexample. -/
theorem lookup_once_when_successful (oracle : Nat → LookupR)
    (hok : ∀ n, (oracle n).isOk = true) (texts : List String) :
    (run_mentions oracle texts ⟨[], []⟩).calls.Nodup :=
  (run_mentions_inv oracle hok texts ⟨[], []⟩
    ⟨List.nodup_nil, by intro u hu; simp at hu⟩).1

/-- Witness for C5 (amended): an always-successful lookup oracle over a
text mentioning `U1` twice; the session's lookup calls are then
duplicate-free. -/
theorem lookup_once_when_successful_witness :
    (run_mentions (fun _ => LookupR.okUser (some "alice") none)
        ["<@U1> <@U1>"] ⟨[], []⟩).calls.Nodup :=
  lookup_once_when_successful (fun _ => LookupR.okUser (some "alice") none)
    (fun _ => rfl) ["<@U1> <@U1>"]

/-- C5 counterexample: when the lookup of `U1` fails (a non-ok response),
the id is deliberately not cached, so one session processing a text that
contains the token `<@U1>` twice invokes the user lookup twice — the
second occurrence is not served from the cache. -/
theorem failed_lookup_retries_cex :
    (run_mentions (fun _ => LookupR.notOk) ["<@U1> hi <@U1>"] ⟨[], []⟩).calls =
      ["U1", "U1"] := by decide

end Samuelizer
